import Mathlib

/-!
Verification development for the warp-kit distortion-correction pipeline.

The definitions below are a shallow embedding of the code in
`src/warpkit/distortion.py` (the `me_sdc` orchestrator) and
`src/warpkit/scripts/unwrap_phase.py` (the CLI metadata workflow).
Components of the repository that are not present under `src/`
(`unwrap_and_compute_field_maps` from `warpkit.unwrap`,
`field_maps_to_displacement_maps` and `invert_displacement_maps` from
`warpkit.utilities`) are modelled from the specification and marked as such
in their doc comments.
-/

namespace WarpKit

/-- A 4x4 voxel-to-world affine transform, entries as rationals
(embedding of the floating-point `nib.Nifti1Image.affine`). -/
def AffineT : Type := Fin 4 → Fin 4 → ℚ

instance : DecidableEq AffineT := by
  unfold AffineT
  infer_instance

/-- Embedding of a `nib.Nifti1Image` as far as the validated claims need it:
its affine and its full shape (3 or 4 entries). -/
structure Volume where
  affine : AffineT
  shape : List ℕ
deriving DecidableEq

/-- `rtol` default of `np.allclose`. -/
def npRtol : ℚ := 1 / 100000

/-- `atol` default of `np.allclose`. -/
def npAtol : ℚ := 1 / 100000000

/-- Embedding of `np.allclose(a, b)` on 4x4 affines with the default
tolerances: elementwise `|a - b| <= atol + rtol * |b|`. -/
def npAllclose (a b : AffineT) : Bool :=
  decide (∀ i j : Fin 4, |a i j - b i j| ≤ npAtol + npRtol * |b i j|)

/-- One comparison of the double loop in `me_sdc` (distortion.py lines 44-49):
given the zipped pairs `(p1, m1)` and `(p2, m2)`, phase is compared with
phase and magnitude with magnitude. -/
def geomPairOk (a b : Volume × Volume) : Bool :=
  npAllclose a.1.affine b.1.affine && npAllclose a.2.affine b.2.affine
    && a.1.shape == b.1.shape && a.2.shape == b.2.shape

/-- The whole geometry check of `me_sdc` (distortion.py lines 42-50):
`for p1, m1 in zip(phase, mag): for p2, m2 in zip(phase, mag): ...`.
Returns `true` exactly when no iteration raises. -/
def geometryOk (phase mag : List Volume) : Bool :=
  let zp := phase.zip mag
  zp.all fun a => zp.all fun b => geomPairOk a b

/-- Error taxonomy of the spec (§7).  `ValueError("Affines and shapes must
match")` is the spec's `GeometryMismatch`; the builder's precondition
failures are `InvalidParameter`.  `other` stands for any further exception a
component may raise. -/
inductive Err where
  | geometryMismatch : Err
  | invalidParameter : Err
  | other : ℕ → Err
deriving DecidableEq

/-- Pipeline stages of `me_sdc`, recorded in order of execution. -/
inductive StageEvent where
  | geometryValidation : StageEvent
  | fieldMapEstimation : StageEvent
  | displacementMapConstruction : StageEvent
  | inversion : StageEvent
deriving DecidableEq

/-- Geometry-level view of a field map / displacement map / correction map
volume: affine, spatial shape, and temporal frame count. -/
structure LabeledVolume where
  affine : AffineT
  spatialShape : List ℕ
  frames : ℕ
deriving DecidableEq

/-- The three components `me_sdc` calls, in order: the field-map provider
(`unwrap_and_compute_field_maps`), the displacement-map builder
(`field_maps_to_displacement_maps`), and the inverter
(`invert_displacement_maps`).  Each may fail with an `Err`. -/
structure Components where
  provider : List Volume → List Volume → List ℚ → Option ℕ → Except Err LabeledVolume
  builder : LabeledVolume → ℚ → String → Except Err LabeledVolume
  inverter : LabeledVolume → String → Bool → Except Err LabeledVolume

/-- Embedding of `me_sdc` (distortion.py lines 8-62).  The first component of
the result is the trace of stages that started executing, in order; the
second is the returned pair `(field_maps, correction_maps)` or the raised
error.  The geometry check runs first; no component error is caught. -/
def meSdc (C : Components) (phase mag : List Volume) (TEs : List ℚ)
    (effectiveEchoSpacing : ℚ) (phaseEncodingDirection : String)
    (upToFrame : Option ℕ) :
    List StageEvent × Except Err (LabeledVolume × LabeledVolume) :=
  if geometryOk phase mag = false then
    ([StageEvent.geometryValidation], Except.error Err.geometryMismatch)
  else
    let t1 := [StageEvent.geometryValidation, StageEvent.fieldMapEstimation]
    match C.provider phase mag TEs upToFrame with
    | Except.error e => (t1, Except.error e)
    | Except.ok fieldMaps =>
      let t2 := t1 ++ [StageEvent.displacementMapConstruction]
      match C.builder fieldMaps effectiveEchoSpacing phaseEncodingDirection with
      | Except.error e => (t2, Except.error e)
      | Except.ok displacementMaps =>
        let t3 := t2 ++ [StageEvent.inversion]
        match C.inverter displacementMaps phaseEncodingDirection true with
        | Except.error e => (t3, Except.error e)
        | Except.ok correctionMaps => (t3, Except.ok (fieldMaps, correctionMaps))

/-- Temporal frame count of an input volume: shape entry 3 when 4D, else 1. -/
def volFrames (v : Volume) : ℕ := v.shape.getD 3 1

/-- Number of frames retained under an optional frame limit (spec §4.2:
the limit restricts a 4D series to its first K temporal frames). -/
def limitFrames (n : ℕ) (upTo : Option ℕ) : ℕ :=
  match upTo with
  | none => n
  | some k => min k n

/-- The six axis/polarity tokens of spec §4.3, in both letterings. -/
def validPED (s : String) : Bool :=
  ["i", "i-", "j", "j-", "k", "k-", "x", "x-", "y", "y-", "z", "z-"].contains s

/-- Modelled from the spec: `unwrap_and_compute_field_maps` (module
`warpkit.unwrap`) is not under `src/`.  Spec §4.2: one output volume per
retained temporal frame, same spatial grid as the inputs, input affine
reused; deterministic.  Values are out of the geometry-level model. -/
def specProvider (phase : List Volume) (_mag : List Volume) (_TEs : List ℚ)
    (upTo : Option ℕ) : Except Err LabeledVolume :=
  match phase with
  | [] => Except.error (Err.other 0)
  | v :: _ =>
    Except.ok
      { affine := v.affine
        spatialShape := v.shape.take 3
        frames := limitFrames (volFrames v) upTo }

/-- Modelled from the spec: `field_maps_to_displacement_maps` (module
`warpkit.utilities`) is not under `src/`.  Spec §4.3: non-positive effective
echo spacing and an axis/polarity token outside the enumerated set are
`InvalidParameter` precondition failures; the output displacement field
lives on the same grid as the field map, one frame per input frame. -/
def specBuilder (fieldMaps : LabeledVolume) (effectiveEchoSpacing : ℚ)
    (phaseEncodingDirection : String) : Except Err LabeledVolume :=
  if effectiveEchoSpacing ≤ 0 then Except.error Err.invalidParameter
  else if validPED phaseEncodingDirection = false then Except.error Err.invalidParameter
  else Except.ok fieldMaps

/-- Modelled from the spec: `invert_displacement_maps` (module
`warpkit.utilities`) is not under `src/`.  Spec §4.4: returns a correction
map on the same grid; non-convergence is non-fatal.  At geometry level the
output shares the input geometry. -/
def specInverter (displacementMaps : LabeledVolume) (_ped : String)
    (_flag : Bool) : Except Err LabeledVolume :=
  Except.ok displacementMaps

/-- The pipeline components as the spec describes them. -/
def specComponents : Components :=
  { provider := specProvider
    builder := specBuilder
    inverter := specInverter }

/-! ### The displacement-field inverter, one grid line along the declared axis

Modelled from the spec: `invert_displacement_maps` (module `warpkit.utilities`)
is not under `src/`.  Spec §4.4 fixes the algorithm: fixed-point iteration
`c₀ = -d`, `c_{n+1}(x) = -d(x + c_n(x))`, with `d` sampled at non-integer
coordinates by linear interpolation along the declared axis and
nearest-neighbor (clamped) extension at the volume boundary; stop when the
maximum absolute change falls below a declared tolerance or an iteration cap
is reached. -/

/-- Floor of a rational as an integer (`den` is positive, so floored integer
division of `num` by `den` is the floor). -/
def ratFloor (q : ℚ) : ℤ := Int.fdiv q.num q.den

/-- Clamped linear interpolation of the samples `d` (at grid positions
`0, 1, ..., d.length - 1`) at the possibly non-integer coordinate `x`;
coordinates outside the range clamp to the nearest valid voxel (spec §4.4). -/
def interp1 (d : List ℚ) (x : ℚ) : ℚ :=
  match d with
  | [] => 0
  | _ =>
    if x ≤ 0 then d.headD 0
    else if (d.length : ℚ) - 1 ≤ x then d.getLastD 0
    else
      let i := (ratFloor x).toNat
      let a := d.getD i 0
      let b := d.getD (i + 1) 0
      a + (x - (i : ℚ)) * (b - a)

/-- One fixed-point step of the inverter: `c'(i) = -d(i + c(i))` at every
grid index `i` (spec §4.4). -/
def invertStep (d c : List ℚ) : List ℚ :=
  (List.range d.length).map fun i : ℕ => -interp1 d ((i : ℚ) + c.getD i 0)

/-- Maximum absolute componentwise difference of two iterates. -/
def maxAbsDiff (a b : List ℚ) : ℚ :=
  ((a.zip b).map fun p => |p.1 - p.2|).foldr max 0

/-- The iteration loop: apply `invertStep` until the change drops below
`tol` (returning the new iterate and `true`) or the fuel runs out
(returning the best available iterate and `false`, spec §4.4). -/
def invertIter (d : List ℚ) (tol : ℚ) : ℕ → List ℚ → List ℚ × Bool
  | 0, c => (c, false)
  | n + 1, c =>
    let c' := invertStep d c
    if maxAbsDiff c' c < tol then (c', true)
    else invertIter d tol n c'

/-- The inverter on one grid line: seed `c₀ = -d`, iterate up to `cap`
times with tolerance `tol`.  Returns the correction map and a convergence
flag (`false` would be reported as a `ConvergenceWarning`). -/
def invertDisplacement1D (d : List ℚ) (tol : ℚ) (cap : ℕ) : List ℚ × Bool :=
  invertIter d tol cap (d.map fun v => -v)

/-- Round-trip residual of the spec's §8 property at grid index `i`:
`x + d(x) + c(x + d(x)) - x = d(i) + c(i + d(i))`, with `c` sampled by the
same clamped linear interpolation. -/
def roundTripErr (d c : List ℚ) (i : ℕ) : ℚ :=
  d.getD i 0 + interp1 c ((i : ℚ) + d.getD i 0)

/-- Truncated Taylor polynomial of the sine function (degree 15), used to
build a concrete smooth synthetic displacement field over ℚ. -/
def sinTaylor (x : ℚ) : ℚ :=
  x - x ^ 3 / 6 + x ^ 5 / 120 - x ^ 7 / 5040 + x ^ 9 / 362880
    - x ^ 11 / 39916800 + x ^ 13 / 6227020800 - x ^ 15 / 1307674368000

/-- Synthetic forward displacement field `d(x) = k·sin(x/λ)` with
`k = 1/4`, `λ = 51/5`, sampled on the 33-voxel grid `x = 0, ..., 32`
(`k` small relative to `λ`, as the round-trip property requires). -/
def syntheticD : List ℚ :=
  (List.range 33).map fun i => (1 / 4) * sinTaylor ((5 * i : ℚ) / 51)

/-- The declared tolerance of the inverter (spec §4.4: "e.g., 1e-3 of a
voxel"). -/
def declaredTol : ℚ := 1 / 1000

/-- The declared iteration cap of the inverter (spec §4.4: "e.g., 50"). -/
def iterationCap : ℕ := 50

/-! ### The CLI metadata workflow, `unwrap_phases` (unwrap_phase.py lines 149-182) -/

/-- A JSON sidecar as the metadata loop reads it: `EchoTime` is accessed
unconditionally (`metadata_dict["EchoTime"]`, in seconds), the other two
fields through `.get`, so they may be absent. -/
structure Sidecar where
  echoTime : ℚ
  totalReadoutTime : Option ℚ
  phaseEncodingDirection : Option String
deriving DecidableEq

/-- Errors of the metadata layer (the two `ValueError`s at
unwrap_phase.py lines 163 and 166). -/
inductive CliError where
  | missingTotalReadoutTime : CliError
  | missingPhaseEncodingDirection : CliError
deriving DecidableEq

/-- Mutable state of the metadata loop: the growing `echo_times` list and
the two fields captured from the first sidecar. -/
structure MetaAcc where
  echoTimes : List ℚ
  totalReadoutTime : Option ℚ
  phaseEncodingDirection : Option String
deriving DecidableEq

/-- The loop body of `for i_run, json_file in enumerate(metadata)`
(unwrap_phase.py lines 153-160): every iteration appends
`EchoTime * 1000`; only iteration 0 captures `TotalReadoutTime` and
`PhaseEncodingDirection`. -/
def metadataLoopAux : ℕ → List Sidecar → MetaAcc → MetaAcc
  | _, [], acc => acc
  | i, m :: rest, acc =>
    let acc1 : MetaAcc :=
      { acc with echoTimes := acc.echoTimes ++ [m.echoTime * 1000] }
    let acc2 : MetaAcc :=
      if i = 0 then
        { acc1 with
            totalReadoutTime := m.totalReadoutTime
            phaseEncodingDirection := m.phaseEncodingDirection }
      else acc1
    metadataLoopAux (i + 1) rest acc2

/-- The whole metadata loop, started with empty `echo_times` and the two
fields initialized to `None` (unwrap_phase.py lines 150-152). -/
def metadataFold (meta : List Sidecar) : MetaAcc :=
  metadataLoopAux 0 meta { echoTimes := [], totalReadoutTime := none, phaseEncodingDirection := none }

/-- The presence checks after the loop (unwrap_phase.py lines 162-166):
`TotalReadoutTime` is checked first, then `PhaseEncodingDirection`; on
success the collected values are handed onward. -/
def validateMetadata (meta : List Sidecar) : Except CliError (List ℚ × ℚ × String) :=
  let acc := metadataFold meta
  match acc.totalReadoutTime with
  | none => Except.error CliError.missingTotalReadoutTime
  | some trt =>
    match acc.phaseEncodingDirection with
    | none => Except.error CliError.missingPhaseEncodingDirection
    | some ped => Except.ok (acc.echoTimes, trt, ped)

/-- One echo of the series handed to estimation: echo time, magnitude
volume, phase volume — the tuple order of
`zip(echo_times, mag_data, phase_data)` (unwrap_phase.py line 169). -/
def EchoEntry : Type := ℚ × Volume × Volume

/-- Comparison used by `sorted` on the zipped triples; with strictly
distinct echo times Python's lexicographic tuple order never reaches the
second component, so it is comparison of echo times. -/
def leEcho (a b : EchoEntry) : Prop := a.1 ≤ b.1

instance : DecidableRel leEcho := fun a b => inferInstanceAs (Decidable (a.1 ≤ b.1))

instance : IsTotal EchoEntry leEcho := ⟨fun a b => le_total a.1 b.1⟩

instance : IsTrans EchoEntry leEcho := ⟨fun _ _ _ h h' => le_trans h h'⟩

/-- Embedding of line 169,
`zip(*sorted(zip(echo_times, mag_data, phase_data)))`: a stable sort of the
triples by echo time. -/
def sortEchoSeries (l : List EchoEntry) : List EchoEntry :=
  l.insertionSort leEcho

/-- The dataflow of `unwrap_phases` from the metadata loop to the
estimation call (unwrap_phase.py lines 149-207): validation errors are
raised before estimation; on success estimation receives the sorted echo
series together with the captured readout time and direction string. -/
def unwrapPhasesWorkflow (meta : List Sidecar) (magData phaseData : List Volume) :
    Except CliError (List EchoEntry × ℚ × String) :=
  match validateMetadata meta with
  | Except.error e => Except.error e
  | Except.ok (tes, trt, ped) =>
    Except.ok (sortEchoSeries (tes.zip (magData.zip phaseData)), trt, ped)

/-! ### Module-level facts about `unwrap_phase.py` (claim C10)

A shallow, syntactic model: Python refuses to compile a module containing a
call with a positional argument after a keyword argument, and a
`from ... import name` raises `ImportError` when the source module does not
define `name`; either defect alone prevents every function of the module
from ever running. -/

/-- Kinds of arguments at a Python call site. -/
inductive PyArg where
  | positional : PyArg
  | keyword : PyArg
deriving DecidableEq

/-- The argument list of the `unwrap_phase_data(...)` call at
unwrap_phase.py lines 172-182, in source order: `phase=`, `mag=`, `TEs=`
are keyword arguments, then `total_readout_time`,
`phase_encoding_direction`, `out_prefix`, `n_cpus`, `debug`, `wrap_limit`
are positional. -/
def unwrapPhaseDataCallArgs : List PyArg :=
  [PyArg.keyword, PyArg.keyword, PyArg.keyword,
   PyArg.positional, PyArg.positional, PyArg.positional,
   PyArg.positional, PyArg.positional, PyArg.positional]

/-- Whether an argument list has a positional argument after a keyword
argument (a Python `SyntaxError`). -/
def hasPositionalAfterKeyword : List PyArg → Bool
  | [] => false
  | PyArg.keyword :: rest => rest.contains PyArg.positional
  | PyArg.positional :: rest => hasPositionalAfterKeyword rest

/-- The module attributes `warpkit.distortion` would expose: its four
imported names that are modules or callables plus the typing imports and
its single definition `me_sdc` (distortion.py lines 1-8). -/
def distortionModuleNames : List String :=
  ["List", "Tuple", "Union", "nib", "np",
   "unwrap_and_compute_field_maps", "field_maps_to_displacement_maps",
   "invert_displacement_maps", "me_sdc"]

/-- The name `unwrap_phase.py` line 11 imports from `warpkit.distortion`. -/
def importedFromDistortion : String := "medic"

/-- Modelled Python load semantics for `unwrap_phase.py`: the module loads
only if its body has no positional-after-keyword call and its import from
`warpkit.distortion` resolves. -/
def unwrapPhaseModuleLoads : Bool :=
  !hasPositionalAfterKeyword unwrapPhaseDataCallArgs
    && distortionModuleNames.contains importedFromDistortion

/-! ### Concrete inputs used by witnesses and counterexamples -/

/-- The identity affine. -/
def idAffine : AffineT := fun i j => if i = j then 1 else 0

/-- The identity affine with a translation of 100 in its last column: far
beyond the `np.allclose` tolerance of the identity. -/
def shiftedAffine : AffineT := fun i j =>
  if i = j then 1 else if j = 3 then 100 else 0

/-- A 4D volume of shape 2x2x2 with 5 frames and identity affine. -/
def vol4D : Volume := { affine := idAffine, shape := [2, 2, 2, 5] }

/-- The same volume with the shifted affine. -/
def volShifted : Volume := { affine := shiftedAffine, shape := [2, 2, 2, 5] }

deriving instance DecidableEq for Except

/-- Two of the zipped (phase, magnitude) pairs fail one of the within-group
comparisons `me_sdc` actually performs. -/
def withinGroupMismatch (phase mag : List Volume) : Prop :=
  ∃ a ∈ phase.zip mag, ∃ b ∈ phase.zip mag, geomPairOk a b = false

/-- The comparisons of one loop iteration, spelled out: phase affine against
phase affine, magnitude affine against magnitude affine, phase shape against
phase shape, magnitude shape against magnitude shape — never phase against
magnitude. -/
lemma geomPairOk_eq_true_iff (a b : Volume × Volume) :
    geomPairOk a b = true ↔
      (npAllclose a.1.affine b.1.affine = true ∧
       npAllclose a.2.affine b.2.affine = true ∧
       a.1.shape = b.1.shape ∧ a.2.shape = b.2.shape) := by
  simp [geomPairOk, and_assoc]

lemma geometryOk_eq_true_iff (phase mag : List Volume) :
    geometryOk phase mag = true ↔ ¬ withinGroupMismatch phase mag := by
  constructor
  · intro h hm
    rcases hm with ⟨a, ha, b, hb, hfail⟩
    simp only [geometryOk, List.all_eq_true] at h
    rw [h a ha b hb] at hfail
    exact Bool.noConfusion hfail
  · intro hnm
    simp only [geometryOk, List.all_eq_true]
    intro a ha b hb
    cases hab : geomPairOk a b
    · exact absurd ⟨a, ha, b, hb, hab⟩ hnm
    · rfl

lemma geometryOk_eq_false_iff (phase mag : List Volume) :
    geometryOk phase mag = false ↔ withinGroupMismatch phase mag := by
  constructor
  · intro h
    by_contra hnm
    rw [(geometryOk_eq_true_iff phase mag).mpr hnm] at h
    exact Bool.noConfusion h
  · intro hm
    cases h : geometryOk phase mag
    · rfl
    · exact absurd hm ((geometryOk_eq_true_iff phase mag).mp h)

/-- When the geometry check passes, `me_sdc` begins field-map estimation
directly after validation, whatever the components and the remaining
arguments are. -/
lemma meSdc_trace_of_geometryOk (C : Components) (phase mag : List Volume)
    (TEs : List ℚ) (ees : ℚ) (ped : String) (upTo : Option ℕ)
    (h : geometryOk phase mag = true) :
    ∃ t, (meSdc C phase mag TEs ees ped upTo).1 =
      StageEvent.geometryValidation :: StageEvent.fieldMapEstimation :: t := by
  simp only [meSdc, h]
  rw [if_neg (by simp)]
  cases hp : C.provider phase mag TEs upTo with
  | error e => exact ⟨[], by simp [hp]⟩
  | ok fm =>
    cases hb : C.builder fm ees ped with
    | error e =>
      exact ⟨[StageEvent.displacementMapConstruction], by simp [hp, hb]⟩
    | ok dm =>
      cases hi : C.inverter dm ped true with
      | error e =>
        exact ⟨[StageEvent.displacementMapConstruction, StageEvent.inversion],
          by simp [hp, hb, hi]⟩
      | ok cm =>
        exact ⟨[StageEvent.displacementMapConstruction, StageEvent.inversion],
          by simp [hp, hb, hi]⟩

/-! ### Claim theorems -/

set_option maxRecDepth 4000000 in
/-- C4.  Round-trip property of the displacement-field inverter (modelled
from spec §4.4): for the smooth synthetic displacement field
`d(x) = k·sin(x/λ)` with `k = 1/4`, `λ = 51/5` on a 33-voxel grid line, the
iteration converges and at every voxel position `x` the correction map `c`
satisfies `|x + d(x) + c(x + d(x)) - x| < declared tolerance`. -/
theorem inverter_round_trip_on_synthetic_sine :
    (invertDisplacement1D syntheticD declaredTol iterationCap).2 = true ∧
    ∀ i : Fin 33,
      |roundTripErr syntheticD
          (invertDisplacement1D syntheticD declaredTol iterationCap).1 i| <
        declaredTol := by
  with_unfolding_all decide

/-- C1 (amended).  `me_sdc`'s validation compares only phase with phase and
magnitude with magnitude over the zipped pairs: if any such within-group
pair differs in affine (beyond `np.allclose` tolerance) or shape, the call
raises the `GeometryMismatch` error (`ValueError`) before field-map
computation begins; if all within-group pairs agree, validation raises
nothing, performs no mutation, and the call proceeds into field-map
estimation.  Phase-versus-magnitude differences are not checked. -/
theorem me_sdc_geometry_validation_behavior
    (C : Components) (phase mag : List Volume) (TEs : List ℚ) (ees : ℚ)
    (ped : String) (upTo : Option ℕ) :
    (withinGroupMismatch phase mag →
      meSdc C phase mag TEs ees ped upTo =
        ([StageEvent.geometryValidation], Except.error Err.geometryMismatch)) ∧
    (¬ withinGroupMismatch phase mag →
      ∃ t, (meSdc C phase mag TEs ees ped upTo).1 =
        StageEvent.geometryValidation :: StageEvent.fieldMapEstimation :: t) := by
  constructor
  · intro hm
    have hfalse := (geometryOk_eq_false_iff phase mag).mpr hm
    simp [meSdc, hfalse]
  · intro hnm
    exact meSdc_trace_of_geometryOk C phase mag TEs ees ped upTo
      ((geometryOk_eq_true_iff phase mag).mpr hnm)

/-- Witness for C1's amended theorem: two phase volumes with affines that
differ far beyond tolerance trigger the error before estimation. -/
theorem me_sdc_geometry_validation_behavior_witness :
    withinGroupMismatch [vol4D, volShifted] [vol4D, vol4D] ∧
    meSdc specComponents [vol4D, volShifted] [vol4D, vol4D] [1, 2] (1 / 2000)
        "j" none =
      ([StageEvent.geometryValidation], Except.error Err.geometryMismatch) := by
  have hm : withinGroupMismatch [vol4D, volShifted] [vol4D, vol4D] := by
    unfold withinGroupMismatch
    with_unfolding_all decide
  exact ⟨hm,
    (me_sdc_geometry_validation_behavior specComponents _ _ _ _ _ _).1 hm⟩

/-- C1, counterexample to the claim as stated: a phase volume and a
magnitude volume of the combined input set differ in affine far beyond
floating tolerance, yet `me_sdc` raises no `GeometryMismatch` — it proceeds
into field-map estimation (phase is never compared with magnitude). -/
theorem me_sdc_cross_geometry_not_checked :
    npAllclose vol4D.affine volShifted.affine = false ∧
    (meSdc specComponents [vol4D] [volShifted] [1] (1 / 2000) "j" none).2 ≠
      Except.error Err.geometryMismatch ∧
    StageEvent.fieldMapEstimation ∈
      (meSdc specComponents [vol4D] [volShifted] [1] (1 / 2000) "j" none).1 := by
  with_unfolding_all decide

/-- C2 (amended).  `me_sdc` performs no series-length validation: whenever
the geometry check passes, a call whose phase, magnitude, and echo-time
series lengths do not all agree still proceeds into field-map estimation;
no `InvalidParameter` is raised before computation. -/
theorem me_sdc_no_series_length_check
    (C : Components) (phase mag : List Volume) (TEs : List ℚ) (ees : ℚ)
    (ped : String) (upTo : Option ℕ)
    (hgeom : geometryOk phase mag = true)
    (_hlen : ¬(phase.length = mag.length ∧ mag.length = TEs.length)) :
    ∃ t, (meSdc C phase mag TEs ees ped upTo).1 =
      StageEvent.geometryValidation :: StageEvent.fieldMapEstimation :: t :=
  meSdc_trace_of_geometryOk C phase mag TEs ees ped upTo hgeom

/-- Witness for C2's amended theorem: series lengths 1, 1, 2. -/
theorem me_sdc_no_series_length_check_witness :
    geometryOk [vol4D] [vol4D] = true ∧
    ¬(([vol4D] : List Volume).length = ([vol4D] : List Volume).length ∧
        ([vol4D] : List Volume).length = ([(1 : ℚ), 2] : List ℚ).length) ∧
    ∃ t, (meSdc specComponents [vol4D] [vol4D] [1, 2] (1 / 2000) "j" none).1 =
      StageEvent.geometryValidation :: StageEvent.fieldMapEstimation :: t := by
  have h1 : geometryOk [vol4D] [vol4D] = true := by with_unfolding_all decide
  have h2 : ¬(([vol4D] : List Volume).length = ([vol4D] : List Volume).length ∧
      ([vol4D] : List Volume).length = ([(1 : ℚ), 2] : List ℚ).length) := by
    decide
  exact ⟨h1, h2,
    me_sdc_no_series_length_check specComponents _ _ _ _ _ _ h1 h2⟩

/-- C2, counterexample to the claim as stated: with series lengths 1, 1, 2
the call does not fail with `InvalidParameter` before any computation —
field-map estimation begins, and no `InvalidParameter` is ever raised. -/
theorem me_sdc_length_mismatch_not_rejected :
    ([vol4D] : List Volume).length ≠ ([(1 : ℚ), 2] : List ℚ).length ∧
    StageEvent.fieldMapEstimation ∈
      (meSdc specComponents [vol4D] [vol4D] [1, 2] (1 / 2000) "j" none).1 ∧
    (meSdc specComponents [vol4D] [vol4D] [1, 2] (1 / 2000) "j" none).2 ≠
      Except.error Err.invalidParameter := by
  with_unfolding_all decide

/-- C3 (amended).  The `InvalidParameter` failure for non-positive
effective echo spacing or an axis/polarity token outside the enumerated set
is raised by the displacement-map builder — after field-map estimation has
already run, not before numerical work begins; `me_sdc` performs no
parameter validation of its own before estimation. -/
theorem me_sdc_invalid_parameter_raised_in_builder
    (phase mag : List Volume) (TEs : List ℚ) (ees : ℚ) (ped : String)
    (upTo : Option ℕ) (v : Volume) (rest : List Volume)
    (hphase : phase = v :: rest)
    (hgeom : geometryOk phase mag = true)
    (hbad : ees ≤ 0 ∨ validPED ped = false) :
    meSdc specComponents phase mag TEs ees ped upTo =
      ([StageEvent.geometryValidation, StageEvent.fieldMapEstimation,
        StageEvent.displacementMapConstruction],
       Except.error Err.invalidParameter) := by
  subst hphase
  simp only [meSdc, hgeom]
  rw [if_neg (by simp)]
  simp only [specComponents, specProvider, specBuilder]
  rcases hbad with hb | hb
  · rw [if_pos hb]
    rfl
  · by_cases he : ees ≤ 0
    · rw [if_pos he]
      rfl
    · rw [if_neg he, hb]
      rfl

/-- Witness for C3's amended theorem: negative echo spacing. -/
theorem me_sdc_invalid_parameter_raised_in_builder_witness :
    geometryOk [vol4D] [vol4D] = true ∧
    ((-1 : ℚ) ≤ 0 ∨ validPED "j" = false) ∧
    meSdc specComponents [vol4D] [vol4D] [1] (-1) "j" none =
      ([StageEvent.geometryValidation, StageEvent.fieldMapEstimation,
        StageEvent.displacementMapConstruction],
       Except.error Err.invalidParameter) := by
  have h1 : geometryOk [vol4D] [vol4D] = true := by with_unfolding_all decide
  have h2 : ((-1 : ℚ) ≤ 0 ∨ validPED "j" = false) := Or.inl (by norm_num)
  exact ⟨h1, h2,
    me_sdc_invalid_parameter_raised_in_builder _ _ _ _ _ _ vol4D [] rfl h1 h2⟩

/-- C3, counterexample to the claim as stated: with axis token "q" outside
the enumerated set (and separately with negative echo spacing), the
`InvalidParameter` error is indeed raised, but field-map estimation has
already run by then — the failure is not before numerical work begins. -/
theorem me_sdc_parameter_errors_after_estimation :
    (meSdc specComponents [vol4D] [vol4D] [1] (1 / 2000) "q" none).2 =
      Except.error Err.invalidParameter ∧
    StageEvent.fieldMapEstimation ∈
      (meSdc specComponents [vol4D] [vol4D] [1] (1 / 2000) "q" none).1 ∧
    (meSdc specComponents [vol4D] [vol4D] [1] (-1) "j" none).2 =
      Except.error Err.invalidParameter ∧
    StageEvent.fieldMapEstimation ∈
      (meSdc specComponents [vol4D] [vol4D] [1] (-1) "j" none).1 := by
  with_unfolding_all decide

/-- C5.  Every successful `me_sdc` call returns exactly the pair
(field maps, correction maps), in that order, both sharing the geometry of
the input (affine and spatial shape of the first phase volume) and carrying
the frame count of the possibly frame-limited input; all four pipeline
stages ran. -/
theorem me_sdc_success_returns_two_labeled_volumes
    (phase mag : List Volume) (TEs : List ℚ) (ees : ℚ) (ped : String)
    (upTo : Option ℕ) (v : Volume) (rest : List Volume)
    (hphase : phase = v :: rest) (fm cm : LabeledVolume)
    (hok : (meSdc specComponents phase mag TEs ees ped upTo).2 =
      Except.ok (fm, cm)) :
    fm.affine = v.affine ∧ cm.affine = v.affine ∧
    fm.spatialShape = v.shape.take 3 ∧ cm.spatialShape = v.shape.take 3 ∧
    fm.frames = limitFrames (volFrames v) upTo ∧ cm.frames = fm.frames ∧
    (meSdc specComponents phase mag TEs ees ped upTo).1 =
      [StageEvent.geometryValidation, StageEvent.fieldMapEstimation,
       StageEvent.displacementMapConstruction, StageEvent.inversion] := by
  subst hphase
  by_cases hg : geometryOk (v :: rest) mag = false
  · simp [meSdc, hg] at hok
  · rw [Bool.not_eq_false] at hg
    simp only [meSdc, hg] at hok ⊢
    rw [if_neg (by simp)] at hok ⊢
    simp only [specComponents, specProvider, specBuilder, specInverter] at hok ⊢
    by_cases he : ees ≤ 0
    · rw [if_pos he] at hok
      simp at hok
    · rw [if_neg he] at hok ⊢
      by_cases hp : validPED ped = false
      · rw [hp] at hok
        simp at hok
      · rw [Bool.not_eq_false] at hp
        rw [hp] at hok ⊢
        simp only [Bool.true_eq_false, if_neg, if_false] at hok ⊢
        simp at hok
        obtain ⟨h1, h2⟩ := hok
        subst h1
        subst h2
        simp

/-- The field map the spec-modelled provider produces for `vol4D` limited
to 3 frames. -/
def outFM3 : LabeledVolume :=
  { affine := idAffine, spatialShape := [2, 2, 2], frames := 3 }

/-- Witness for C5's theorem: a concrete successful call with a frame
limit of 3 on a 5-frame input. -/
theorem me_sdc_success_returns_two_labeled_volumes_witness :
    (meSdc specComponents [vol4D] [vol4D] [1] (1 / 2000) "j" (some 3)).2 =
      Except.ok (outFM3, outFM3) ∧
    (outFM3.affine = vol4D.affine ∧ outFM3.affine = vol4D.affine ∧
     outFM3.spatialShape = vol4D.shape.take 3 ∧
     outFM3.spatialShape = vol4D.shape.take 3 ∧
     outFM3.frames = limitFrames (volFrames vol4D) (some 3) ∧
     outFM3.frames = outFM3.frames ∧
     (meSdc specComponents [vol4D] [vol4D] [1] (1 / 2000) "j" (some 3)).1 =
       [StageEvent.geometryValidation, StageEvent.fieldMapEstimation,
        StageEvent.displacementMapConstruction, StageEvent.inversion]) := by
  have hok : (meSdc specComponents [vol4D] [vol4D] [1] (1 / 2000) "j"
      (some 3)).2 = Except.ok (outFM3, outFM3) := by
    with_unfolding_all decide
  exact ⟨hok, me_sdc_success_returns_two_labeled_volumes _ _ _ _ _ _ vol4D []
    rfl outFM3 outFM3 hok⟩

/-- C6.  `me_sdc` propagates every component exception unchanged: whichever
of the three components (field-map estimation, displacement-map
construction, inversion) fails first, its own error is the call's result —
nothing is caught, replaced, retried, or swallowed. -/
theorem me_sdc_propagates_component_errors
    (C : Components) (phase mag : List Volume) (TEs : List ℚ) (ees : ℚ)
    (ped : String) (upTo : Option ℕ) (e : Err)
    (hgeom : geometryOk phase mag = true) :
    (C.provider phase mag TEs upTo = Except.error e →
      (meSdc C phase mag TEs ees ped upTo).2 = Except.error e) ∧
    (∀ fm, C.provider phase mag TEs upTo = Except.ok fm →
      C.builder fm ees ped = Except.error e →
      (meSdc C phase mag TEs ees ped upTo).2 = Except.error e) ∧
    (∀ fm dm, C.provider phase mag TEs upTo = Except.ok fm →
      C.builder fm ees ped = Except.ok dm →
      C.inverter dm ped true = Except.error e →
      (meSdc C phase mag TEs ees ped upTo).2 = Except.error e) := by
  refine ⟨?_, ?_, ?_⟩
  · intro hp
    simp only [meSdc, hgeom]
    rw [if_neg (by simp)]
    simp [hp]
  · intro fm hp hb
    simp only [meSdc, hgeom]
    rw [if_neg (by simp)]
    simp [hp, hb]
  · intro fm dm hp hb hi
    simp only [meSdc, hgeom]
    rw [if_neg (by simp)]
    simp [hp, hb, hi]

/-- A component set whose provider fails with a distinctive error. -/
def failingProviderComponents : Components :=
  { provider := fun _ _ _ _ => Except.error (Err.other 7)
    builder := specBuilder
    inverter := specInverter }

/-- A component set whose builder fails with a distinctive error. -/
def failingBuilderComponents : Components :=
  { provider := specProvider
    builder := fun _ _ _ => Except.error (Err.other 8)
    inverter := specInverter }

/-- A component set whose inverter fails with a distinctive error. -/
def failingInverterComponents : Components :=
  { provider := specProvider
    builder := specBuilder
    inverter := fun _ _ _ => Except.error (Err.other 9) }

/-- The field map the spec-modelled provider produces for `vol4D` with no
frame limit. -/
def outFM5 : LabeledVolume :=
  { affine := idAffine, spatialShape := [2, 2, 2], frames := 5 }

/-- Witness for C6's theorem: each of the three components failing in turn,
with its distinctive error surfacing unchanged. -/
theorem me_sdc_propagates_component_errors_witness :
    geometryOk [vol4D] [vol4D] = true ∧
    (meSdc failingProviderComponents [vol4D] [vol4D] [1] (1 / 2000) "j"
        none).2 = Except.error (Err.other 7) ∧
    (meSdc failingBuilderComponents [vol4D] [vol4D] [1] (1 / 2000) "j"
        none).2 = Except.error (Err.other 8) ∧
    (meSdc failingInverterComponents [vol4D] [vol4D] [1] (1 / 2000) "j"
        none).2 = Except.error (Err.other 9) := by
  have hg : geometryOk [vol4D] [vol4D] = true := by with_unfolding_all decide
  have hbOk : specBuilder outFM5 (1 / 2000) "j" = Except.ok outFM5 := by
    with_unfolding_all decide
  refine ⟨hg, ?_, ?_, ?_⟩
  · exact (me_sdc_propagates_component_errors failingProviderComponents
      [vol4D] [vol4D] [1] (1 / 2000) "j" none (Err.other 7) hg).1 rfl
  · exact (me_sdc_propagates_component_errors failingBuilderComponents
      [vol4D] [vol4D] [1] (1 / 2000) "j" none (Err.other 8) hg).2.1
      outFM5 rfl rfl
  · exact (me_sdc_propagates_component_errors failingInverterComponents
      [vol4D] [vol4D] [1] (1 / 2000) "j" none (Err.other 9) hg).2.2
      outFM5 outFM5 rfl hbOk rfl

lemma metadataLoopAux_echoTimes (meta : List Sidecar) :
    ∀ (i : ℕ) (acc : MetaAcc),
      (metadataLoopAux i meta acc).echoTimes =
        acc.echoTimes ++ meta.map fun m => m.echoTime * 1000 := by
  induction meta with
  | nil =>
    intro i acc
    simp [metadataLoopAux]
  | cons m rest ih =>
    intro i acc
    simp only [metadataLoopAux, List.map_cons]
    by_cases hi : i = 0
    · rw [if_pos hi, ih]
      simp
    · rw [if_neg hi, ih]
      simp

/-- C8.  At the metadata boundary every `EchoTime` value (seconds) is
multiplied by 1000, so the echo-time list handed onward is exactly the
sidecars' echo times in milliseconds, in their original order. -/
theorem unwrap_phases_echo_times_in_milliseconds (meta : List Sidecar) :
    (metadataFold meta).echoTimes = meta.map fun m => m.echoTime * 1000 := by
  rw [metadataFold, metadataLoopAux_echoTimes]
  rfl

lemma metadataLoopAux_preserves_fields (meta : List Sidecar) :
    ∀ (i : ℕ) (acc : MetaAcc), i ≠ 0 →
      (metadataLoopAux i meta acc).totalReadoutTime = acc.totalReadoutTime ∧
      (metadataLoopAux i meta acc).phaseEncodingDirection =
        acc.phaseEncodingDirection := by
  induction meta with
  | nil =>
    intro i acc _
    exact ⟨rfl, rfl⟩
  | cons m rest ih =>
    intro i acc hi
    simp only [metadataLoopAux]
    rw [if_neg hi]
    exact ih (i + 1) _ (Nat.succ_ne_zero i)

/-- After the loop, the captured readout time and direction are exactly the
first sidecar's fields: later iterations never overwrite them. -/
lemma metadataFold_first (m : Sidecar) (rest : List Sidecar) :
    (metadataFold (m :: rest)).totalReadoutTime = m.totalReadoutTime ∧
    (metadataFold (m :: rest)).phaseEncodingDirection =
      m.phaseEncodingDirection := by
  unfold metadataFold
  simp only [metadataLoopAux]
  rw [if_pos trivial]
  exact metadataLoopAux_preserves_fields rest 1 _ one_ne_zero

/-- C9.  The metadata layer validates presence of the file-derived values:
when the first sidecar lacks `TotalReadoutTime` the workflow fails with the
error naming that field; when it has `TotalReadoutTime` but lacks
`PhaseEncodingDirection` the error names that field; when both are present
in the first sidecar no such error is raised and the collected values are
handed onward.  In both error cases the workflow stops before the echo
series is ever assembled for estimation. -/
theorem unwrap_phases_metadata_presence_check
    (meta : List Sidecar) (m : Sidecar) (rest : List Sidecar)
    (hmeta : meta = m :: rest) :
    (m.totalReadoutTime = none →
      validateMetadata meta = Except.error CliError.missingTotalReadoutTime ∧
      ∀ mags phases : List Volume, unwrapPhasesWorkflow meta mags phases =
        Except.error CliError.missingTotalReadoutTime) ∧
    (∀ t : ℚ, m.totalReadoutTime = some t → m.phaseEncodingDirection = none →
      validateMetadata meta =
        Except.error CliError.missingPhaseEncodingDirection ∧
      ∀ mags phases : List Volume, unwrapPhasesWorkflow meta mags phases =
        Except.error CliError.missingPhaseEncodingDirection) ∧
    (∀ (t : ℚ) (p : String), m.totalReadoutTime = some t →
      m.phaseEncodingDirection = some p →
      validateMetadata meta =
        Except.ok ((metadataFold meta).echoTimes, t, p)) := by
  subst hmeta
  obtain ⟨htrt, hped⟩ := metadataFold_first m rest
  refine ⟨?_, ?_, ?_⟩
  · intro hnone
    have hv : validateMetadata (m :: rest) =
        Except.error CliError.missingTotalReadoutTime := by
      simp only [validateMetadata]
      rw [htrt, hnone]
    refine ⟨hv, fun mags phases => ?_⟩
    simp only [unwrapPhasesWorkflow]
    rw [hv]
  · intro t ht hnone
    have hv : validateMetadata (m :: rest) =
        Except.error CliError.missingPhaseEncodingDirection := by
      simp only [validateMetadata]
      rw [htrt, ht, hped, hnone]
    refine ⟨hv, fun mags phases => ?_⟩
    simp only [unwrapPhasesWorkflow]
    rw [hv]
  · intro t p ht hp
    simp only [validateMetadata]
    rw [htrt, ht, hped, hp]

/-- First sidecar of the C9 witness, lacking `TotalReadoutTime`. -/
def sidecarNoTRT : Sidecar :=
  { echoTime := 1, totalReadoutTime := none, phaseEncodingDirection := some "j" }

/-- First sidecar of the C9 witness, lacking `PhaseEncodingDirection`. -/
def sidecarNoPED : Sidecar :=
  { echoTime := 1, totalReadoutTime := some 2, phaseEncodingDirection := none }

/-- A complete first sidecar. -/
def sidecarFull : Sidecar :=
  { echoTime := 3, totalReadoutTime := some 2, phaseEncodingDirection := some "j" }

/-- A second sidecar lacking both optional fields — irrelevant, since only
the first sidecar is consulted. -/
def sidecarBare : Sidecar :=
  { echoTime := 1, totalReadoutTime := none, phaseEncodingDirection := none }

/-- Witness for C9's theorem: the three branches at concrete sidecars; the
bare second sidecar shows only the first one is consulted. -/
theorem unwrap_phases_metadata_presence_check_witness :
    validateMetadata [sidecarNoTRT] =
      Except.error CliError.missingTotalReadoutTime ∧
    validateMetadata [sidecarNoPED] =
      Except.error CliError.missingPhaseEncodingDirection ∧
    validateMetadata [sidecarFull, sidecarBare] =
      Except.ok ((metadataFold [sidecarFull, sidecarBare]).echoTimes, 2, "j") :=
  ⟨((unwrap_phases_metadata_presence_check [sidecarNoTRT] sidecarNoTRT []
      rfl).1 rfl).1,
   ((unwrap_phases_metadata_presence_check [sidecarNoPED] sidecarNoPED []
      rfl).2.1 2 rfl rfl).1,
   (unwrap_phases_metadata_presence_check [sidecarFull, sidecarBare]
      sidecarFull [sidecarBare] rfl).2.2 2 "j" rfl rfl⟩

lemma pairwise_fst_zip {R : ℚ → ℚ → Prop} :
    ∀ (tes : List ℚ) (xs : List (Volume × Volume)), tes.Pairwise R →
      (tes.zip xs).Pairwise fun a b : EchoEntry => R a.1 b.1
  | [], _, _ => by simp
  | _ :: _, [], _ => by simp
  | t :: ts, x :: xs, h => by
    rw [List.zip_cons_cons]
    rcases List.pairwise_cons.mp h with ⟨h1, h2⟩
    refine List.Pairwise.cons ?_ (pairwise_fst_zip ts xs h2)
    intro b hb
    rcases b with ⟨b1, b2⟩
    exact h1 b1 (List.of_mem_zip hb).1

/-- C7.  The CLI workflow sorts the echo series ascending by echo time
before estimation, with magnitude and phase volumes permuted in lockstep:
when metadata validates and the echo times are distinct, the series handed
to estimation is a permutation of the original (echo time, magnitude,
phase) triples whose echo times are strictly increasing. -/
theorem unwrap_phases_sorts_series_before_estimation
    (meta : List Sidecar) (mags phases : List Volume)
    (tes : List ℚ) (trt : ℚ) (ped : String)
    (hval : validateMetadata meta = Except.ok (tes, trt, ped))
    (hdist : tes.Pairwise fun a b => a ≠ b) :
    unwrapPhasesWorkflow meta mags phases =
      Except.ok (sortEchoSeries (tes.zip (mags.zip phases)), trt, ped) ∧
    (sortEchoSeries (tes.zip (mags.zip phases))).Perm
      (tes.zip (mags.zip phases)) ∧
    (sortEchoSeries (tes.zip (mags.zip phases))).Pairwise
      (fun a b : EchoEntry => a.1 < b.1) := by
  refine ⟨?_, ?_, ?_⟩
  · simp only [unwrapPhasesWorkflow]
    rw [hval]
  · exact List.perm_insertionSort leEcho _
  · have hsorted : (sortEchoSeries (tes.zip (mags.zip phases))).Pairwise
        leEcho := List.sorted_insertionSort leEcho _
    have hperm := List.perm_insertionSort leEcho (tes.zip (mags.zip phases))
    have hne : (tes.zip (mags.zip phases)).Pairwise
        (fun a b : EchoEntry => a.1 ≠ b.1) := pairwise_fst_zip _ _ hdist
    have hne' : (sortEchoSeries (tes.zip (mags.zip phases))).Pairwise
        (fun a b : EchoEntry => a.1 ≠ b.1) :=
      (hperm.pairwise_iff (by intro x y h e; exact h e.symm)).mpr hne
    exact (hsorted.and hne').imp fun h => lt_of_le_of_ne h.1 h.2

/-- Metadata of the C7 witness: distinct, unsorted echo times; only the
first sidecar carries the readout time and direction. -/
def metaW : List Sidecar :=
  [{ echoTime := 3 / 1000, totalReadoutTime := some 2, phaseEncodingDirection := some "j" },
   { echoTime := 1 / 1000, totalReadoutTime := some 9, phaseEncodingDirection := some "k" },
   { echoTime := 2 / 1000, totalReadoutTime := none, phaseEncodingDirection := none }]

set_option maxRecDepth 100000 in
/-- Witness for C7's theorem at concrete metadata and volume lists. -/
theorem unwrap_phases_sorts_series_before_estimation_witness :
    validateMetadata metaW = Except.ok ([3, 1, 2], 2, "j") ∧
    ([(3 : ℚ), 1, 2].Pairwise fun a b => a ≠ b) ∧
    (unwrapPhasesWorkflow metaW [vol4D, vol4D, volShifted]
        [vol4D, volShifted, vol4D] =
      Except.ok (sortEchoSeries ([(3 : ℚ), 1, 2].zip
        ([vol4D, vol4D, volShifted].zip [vol4D, volShifted, vol4D])), 2, "j") ∧
     (sortEchoSeries ([(3 : ℚ), 1, 2].zip
        ([vol4D, vol4D, volShifted].zip [vol4D, volShifted, vol4D]))).Perm
       ([(3 : ℚ), 1, 2].zip
        ([vol4D, vol4D, volShifted].zip [vol4D, volShifted, vol4D])) ∧
     (sortEchoSeries ([(3 : ℚ), 1, 2].zip
        ([vol4D, vol4D, volShifted].zip [vol4D, volShifted, vol4D]))).Pairwise
       (fun a b : EchoEntry => a.1 < b.1)) := by
  have hval : validateMetadata metaW = Except.ok ([3, 1, 2], 2, "j") := by
    with_unfolding_all decide
  have hdist : ([(3 : ℚ), 1, 2].Pairwise fun a b => a ≠ b) := by
    decide
  exact ⟨hval, hdist, unwrap_phases_sorts_series_before_estimation metaW
    [vol4D, vol4D, volShifted] [vol4D, volShifted, vol4D] _ _ _ hval hdist⟩

/-- C10.  The CLI workflow module `unwrap_phase.py` can never execute: the
call at lines 172-182 places positional arguments after keyword arguments
(a Python `SyntaxError`, so the module fails to compile), and line 11
imports the name `medic`, which `warpkit.distortion` does not define; hence
the module never loads and `main` / `unwrap_phases` are unreachable. -/
theorem unwrap_phase_module_never_loads :
    hasPositionalAfterKeyword unwrapPhaseDataCallArgs = true ∧
    distortionModuleNames.contains importedFromDistortion = false ∧
    unwrapPhaseModuleLoads = false := by
  decide

end WarpKit
